import Mathlib

set_option autoImplicit false

/-!
Shallow embedding of the `toxiproxy_rust` client library
(`src/toxic.rs` and `src/proxy.rs`) and proofs about its observable
behaviour.

Modelling conventions:
* `u32` (`ToxicValueType`) is modelled as `Nat`: the client only stores and
  forwards these values, it never computes with them, so no overflow can occur.
* `f32` (`toxicity`) is modelled as `Rat`: the client only stores the value
  verbatim (no floating-point arithmetic happens anywhere), so any exactly
  representable rational such as `1`, `1/2` or `2` behaves identically.
* `HashMap<String, V>` is modelled as an association list together with a
  replace-or-append `hmInsert`; only the key/value contents of the maps are
  observable, never an iteration order.
* The HTTP transport (`HttpClient` behind `Arc<Mutex<_>>`) is abstracted as a
  state-transition function `step : σ → Req → Except String Resp × σ`.  A
  transport error, a non-2xx status or a poisoned-lock error all surface as
  the `Except.error` case, exactly as all of them surface as `Err(String)` in
  the source.  Two instantiations are used: a free "oracle + event trace" one
  that records the requests issued (and when the user-supplied closure body
  runs), and a deterministic model of the remote toxiproxy server.
-/

namespace ToxiproxyRust

/-- `pub type ToxicValueType = u32;` — only ever stored, never computed with. -/
abbrev ToxicValueType := Nat

/-- `TOXIC_CONDITION_MATCHER_TYPE` from `src/toxic.rs`. -/
def TOXIC_CONDITION_MATCHER_TYPE : String := "httpRequestHeaderMatcher"

/-- `ToxicCondition` from `src/toxic.rs`. -/
structure ToxicCondition where
  matcher_type : String
  matcher_parameters : List (String × String)
deriving DecidableEq

/-- `ToxicCondition::new_http_request_header_matcher` from `src/toxic.rs`. -/
def ToxicCondition.new_http_request_header_matcher
    (header_key : String) (header_value_regex : String) : ToxicCondition :=
  { matcher_type := TOXIC_CONDITION_MATCHER_TYPE
    matcher_parameters :=
      [("headerKey", header_key), ("headerValueRegex", header_value_regex)] }

/-- `ToxicPack` from `src/toxic.rs` (the wire/data shape of a toxic).
`toxicity : f32` is modelled as `Rat`; the field named `r#type` in Rust is
`type` here. -/
structure ToxicPack where
  name : String
  type : String
  stream : String
  toxicity : Rat
  attributes : List (String × ToxicValueType)
  condition : Option ToxicCondition
deriving DecidableEq

/-- `ToxicPack::new_with_condition` from `src/toxic.rs`: the `name` field is
always derived as `format!("{}_{}", r#type, stream)`. -/
def ToxicPack.new_with_condition (type : String) (stream : String)
    (toxicity : Rat) (attributes : List (String × ToxicValueType))
    (condition : Option ToxicCondition) : ToxicPack :=
  { name := type ++ "_" ++ stream
    type := type
    stream := stream
    toxicity := toxicity
    attributes := attributes
    condition := condition }

/-- `ToxicPack::new` from `src/toxic.rs`. -/
def ToxicPack.new (type : String) (stream : String) (toxicity : Rat)
    (attributes : List (String × ToxicValueType)) : ToxicPack :=
  ToxicPack.new_with_condition type stream toxicity attributes none

/-- `HashMap::insert` on the association-list model: replace the value if the
key is present, append otherwise. -/
def hmInsert (k : String) (v : ToxicValueType) :
    List (String × ToxicValueType) → List (String × ToxicValueType)
  | [] => [(k, v)]
  | (k', v') :: rest =>
      if k' = k then (k, v) :: rest else (k', v') :: hmInsert k v rest

/-- `ProxyPack` from `src/proxy.rs`. -/
structure ProxyPack where
  name : String
  listen : String
  upstream : String
  enabled : Bool
  toxics : List ToxicPack
deriving DecidableEq

/-- `ProxyPack::new` from `src/proxy.rs`: `enabled = true`, empty toxics. -/
def ProxyPack.new (name : String) (listen : String) (upstream : String) :
    ProxyPack :=
  { name := name
    listen := listen
    upstream := upstream
    enabled := true
    toxics := [] }

/-- `Proxy` from `src/proxy.rs`.  The `client: Arc<Mutex<HttpClient>>` field
is not part of the value model: the transport is the `step` parameter of each
operation. -/
structure Proxy where
  proxy_pack : ProxyPack
deriving DecidableEq

/-- The HTTP requests issued by `impl Proxy` in `src/proxy.rs`, one
constructor per call site (verb + path shape + body).  `Req.path` below
reproduces the exact `format!` path strings of the source. -/
inductive Req where
  | getToxics (proxy : String)
  | postEnabled (proxy : String) (enabled : Bool)
  | postToxic (proxy : String) (toxic : ToxicPack)
  | delToxic (proxy : String) (toxicName : String)
  | delProxy (proxy : String)
deriving DecidableEq

/-- The `format!` path string each request is sent to in `src/proxy.rs`. -/
def Req.path : Req → String
  | .getToxics p => "proxies/" ++ p ++ "/toxics"
  | .postEnabled p _ => "proxies/" ++ p
  | .postToxic p _ => "proxies/" ++ p ++ "/toxics"
  | .delToxic p t => "proxies/" ++ p ++ "/toxics/" ++ t
  | .delProxy p => "proxies/" ++ p

/-- Successful transport responses, as far as this client inspects them:
every call except `toxics()` discards the response body (`.map(|_| ())`),
and `toxics()` deserializes it into a `Vec<ToxicPack>`. -/
inductive Resp where
  | done
  | toxicList (toxics : List ToxicPack)
deriving DecidableEq

/-- Abstract transport (the `Arc<Mutex<HttpClient>>`): one request, one
answer-or-error, plus a state update.  Transport failures, non-2xx statuses
and poisoned-lock errors are all `Except.error`, exactly as all of them are
`Err(String)` in the source. -/
abbrev Step (σ : Type) := σ → Req → Except String Resp × σ

/-- `Proxy::update` from `src/proxy.rs`: POST `{"enabled": b}` to
`proxies/{name}`.  Serializing the one-entry `HashMap` payload cannot fail,
so the serde step is modelled as always succeeding into the structured
`postEnabled` body. -/
def Proxy.update {σ : Type} (step : Step σ) (p : Proxy) (enabled : Bool)
    (s : σ) : Except String Unit × σ :=
  let r := step s (Req.postEnabled p.proxy_pack.name enabled)
  (Except.map (fun _ => Unit.unit) r.1, r.2)

/-- `Proxy::disable` from `src/proxy.rs`. -/
def Proxy.disable {σ : Type} (step : Step σ) (p : Proxy) (s : σ) :
    Except String Unit × σ :=
  Proxy.update step p false s

/-- `Proxy::enable` from `src/proxy.rs`. -/
def Proxy.enable {σ : Type} (step : Step σ) (p : Proxy) (s : σ) :
    Except String Unit × σ :=
  Proxy.update step p true s

/-- `Proxy::delete` from `src/proxy.rs`: DELETE `proxies/{name}`. -/
def Proxy.delete {σ : Type} (step : Step σ) (p : Proxy) (s : σ) :
    Except String Unit × σ :=
  let r := step s (Req.delProxy p.proxy_pack.name)
  (Except.map (fun _ => Unit.unit) r.1, r.2)

/-- `Proxy::toxics` from `src/proxy.rs`: GET `proxies/{name}/toxics`, then
deserialize the body into a toxic list (`response.json()`); a body that is
not a toxic list is a deserialization error. -/
def Proxy.toxics {σ : Type} (step : Step σ) (p : Proxy) (s : σ) :
    Except String (List ToxicPack) × σ :=
  let r := step s (Req.getToxics p.proxy_pack.name)
  (match r.1 with
    | .error e => .error e
    | .ok (.toxicList ts) => .ok ts
    | .ok .done => .error "json deserialize failed", r.2)

/-- Outcome of `Proxy::create_toxic` and of the toxic builders built on it:
the Rust method either panics (`panic!` in the error arm, aborting the whole
program) or returns `&self` — it never returns a recoverable `Result`. -/
inductive CreateOutcome (σ : Type) where
  | panicked (msg : String) (s : σ)
  | ok (p : Proxy) (s : σ)
deriving DecidableEq

/-- `Proxy::create_toxic` from `src/proxy.rs`: POST the serialized toxic to
`proxies/{name}/toxics`; `panic!` on failure, return `&self` on success. -/
def Proxy.create_toxic {σ : Type} (step : Step σ) (p : Proxy)
    (toxic : ToxicPack) (s : σ) : CreateOutcome σ :=
  let r := step s (Req.postToxic p.proxy_pack.name toxic)
  match r.1 with
  | .error e =>
      .panicked ("<proxies>.<toxics> creation has failed: " ++ e) r.2
  | .ok _ => .ok p r.2

/-- The toxic constructed by `with_latency_upon_condition`
(`src/proxy.rs`): type `latency`, attributes `latency` and `jitter`. -/
def latencyToxicPack (stream : String) (latency jitter : ToxicValueType)
    (toxicity : Rat) (condition : Option ToxicCondition) : ToxicPack :=
  ToxicPack.new_with_condition "latency" stream toxicity
    (hmInsert "jitter" jitter (hmInsert "latency" latency [])) condition

/-- The toxic constructed by `with_bandwidth_upon_condition`
(`src/proxy.rs`): type `bandwidth`, attribute `rate`. -/
def bandwidthToxicPack (stream : String) (rate : ToxicValueType)
    (toxicity : Rat) (condition : Option ToxicCondition) : ToxicPack :=
  ToxicPack.new_with_condition "bandwidth" stream toxicity
    (hmInsert "rate" rate []) condition

/-- The toxic constructed by `with_slow_close_upon_condition`
(`src/proxy.rs`): type `slow_close`, attribute `delay`. -/
def slowCloseToxicPack (stream : String) (delay : ToxicValueType)
    (toxicity : Rat) (condition : Option ToxicCondition) : ToxicPack :=
  ToxicPack.new_with_condition "slow_close" stream toxicity
    (hmInsert "delay" delay []) condition

/-- The toxic constructed by `with_timeout_upon_condition`
(`src/proxy.rs`): type `timeout`, attribute `timeout`. -/
def timeoutToxicPack (stream : String) (timeout : ToxicValueType)
    (toxicity : Rat) (condition : Option ToxicCondition) : ToxicPack :=
  ToxicPack.new_with_condition "timeout" stream toxicity
    (hmInsert "timeout" timeout []) condition

/-- The toxic constructed by `with_slicer_upon_condition`
(`src/proxy.rs`): type `slicer`, attributes `average_size`,
`size_variation` and `delay`. -/
def slicerToxicPack (stream : String)
    (average_size size_variation delay : ToxicValueType) (toxicity : Rat)
    (condition : Option ToxicCondition) : ToxicPack :=
  ToxicPack.new_with_condition "slicer" stream toxicity
    (hmInsert "delay" delay (hmInsert "size_variation" size_variation
      (hmInsert "average_size" average_size []))) condition

/-- The toxic constructed by `with_limit_data_upon_condition`
(`src/proxy.rs`): type `limit_data`, attribute `bytes`. -/
def limitDataToxicPack (stream : String) (bytes : ToxicValueType)
    (toxicity : Rat) (condition : Option ToxicCondition) : ToxicPack :=
  ToxicPack.new_with_condition "limit_data" stream toxicity
    (hmInsert "bytes" bytes []) condition

/-- `Proxy::with_latency_upon_condition` from `src/proxy.rs`. -/
def Proxy.with_latency_upon_condition {σ : Type} (step : Step σ) (p : Proxy)
    (stream : String) (latency jitter : ToxicValueType) (toxicity : Rat)
    (condition : Option ToxicCondition) (s : σ) : CreateOutcome σ :=
  Proxy.create_toxic step p
    (latencyToxicPack stream latency jitter toxicity condition) s

/-- `Proxy::with_latency` from `src/proxy.rs`. -/
def Proxy.with_latency {σ : Type} (step : Step σ) (p : Proxy)
    (stream : String) (latency jitter : ToxicValueType) (toxicity : Rat)
    (s : σ) : CreateOutcome σ :=
  Proxy.with_latency_upon_condition step p stream latency jitter toxicity
    none s

/-- `Proxy::with_bandwidth_upon_condition` from `src/proxy.rs`. -/
def Proxy.with_bandwidth_upon_condition {σ : Type} (step : Step σ)
    (p : Proxy) (stream : String) (rate : ToxicValueType) (toxicity : Rat)
    (condition : Option ToxicCondition) (s : σ) : CreateOutcome σ :=
  Proxy.create_toxic step p (bandwidthToxicPack stream rate toxicity
    condition) s

/-- `Proxy::with_bandwidth` from `src/proxy.rs`. -/
def Proxy.with_bandwidth {σ : Type} (step : Step σ) (p : Proxy)
    (stream : String) (rate : ToxicValueType) (toxicity : Rat) (s : σ) :
    CreateOutcome σ :=
  Proxy.with_bandwidth_upon_condition step p stream rate toxicity none s

/-- `Proxy::with_slow_close_upon_condition` from `src/proxy.rs`. -/
def Proxy.with_slow_close_upon_condition {σ : Type} (step : Step σ)
    (p : Proxy) (stream : String) (delay : ToxicValueType) (toxicity : Rat)
    (condition : Option ToxicCondition) (s : σ) : CreateOutcome σ :=
  Proxy.create_toxic step p (slowCloseToxicPack stream delay toxicity
    condition) s

/-- `Proxy::with_slow_close` from `src/proxy.rs`. -/
def Proxy.with_slow_close {σ : Type} (step : Step σ) (p : Proxy)
    (stream : String) (delay : ToxicValueType) (toxicity : Rat) (s : σ) :
    CreateOutcome σ :=
  Proxy.with_slow_close_upon_condition step p stream delay toxicity none s

/-- `Proxy::with_timeout_upon_condition` from `src/proxy.rs`. -/
def Proxy.with_timeout_upon_condition {σ : Type} (step : Step σ) (p : Proxy)
    (stream : String) (timeout : ToxicValueType) (toxicity : Rat)
    (condition : Option ToxicCondition) (s : σ) : CreateOutcome σ :=
  Proxy.create_toxic step p (timeoutToxicPack stream timeout toxicity
    condition) s

/-- `Proxy::with_timeout` from `src/proxy.rs`. -/
def Proxy.with_timeout {σ : Type} (step : Step σ) (p : Proxy)
    (stream : String) (timeout : ToxicValueType) (toxicity : Rat) (s : σ) :
    CreateOutcome σ :=
  Proxy.with_timeout_upon_condition step p stream timeout toxicity none s

/-- `Proxy::with_slicer_upon_condition` from `src/proxy.rs`. -/
def Proxy.with_slicer_upon_condition {σ : Type} (step : Step σ) (p : Proxy)
    (stream : String)
    (average_size size_variation delay : ToxicValueType) (toxicity : Rat)
    (condition : Option ToxicCondition) (s : σ) : CreateOutcome σ :=
  Proxy.create_toxic step p (slicerToxicPack stream average_size
    size_variation delay toxicity condition) s

/-- `Proxy::with_slicer` from `src/proxy.rs`. -/
def Proxy.with_slicer {σ : Type} (step : Step σ) (p : Proxy)
    (stream : String)
    (average_size size_variation delay : ToxicValueType) (toxicity : Rat)
    (s : σ) : CreateOutcome σ :=
  Proxy.with_slicer_upon_condition step p stream average_size size_variation
    delay toxicity none s

/-- `Proxy::with_limit_data_upon_condition` from `src/proxy.rs`. -/
def Proxy.with_limit_data_upon_condition {σ : Type} (step : Step σ)
    (p : Proxy) (stream : String) (bytes : ToxicValueType) (toxicity : Rat)
    (condition : Option ToxicCondition) (s : σ) : CreateOutcome σ :=
  Proxy.create_toxic step p (limitDataToxicPack stream bytes toxicity
    condition) s

/-- `Proxy::with_limit_data` from `src/proxy.rs`. -/
def Proxy.with_limit_data {σ : Type} (step : Step σ) (p : Proxy)
    (stream : String) (bytes : ToxicValueType) (toxicity : Rat) (s : σ) :
    CreateOutcome σ :=
  Proxy.with_limit_data_upon_condition step p stream bytes toxicity none s

/-- `Proxy::with_down` from `src/proxy.rs`:
`self.disable()?; closure(); self.enable()`.  The user closure is a side
effect on the outside world, modelled as a state transformer. -/
def Proxy.with_down {σ : Type} (step : Step σ) (p : Proxy)
    (closure : σ → σ) (s : σ) : Except String Unit × σ :=
  match Proxy.disable step p s with
  | (.error e, s1) => (.error e, s1)
  | (.ok _, s1) => Proxy.enable step p (closure s1)

/-- The `for toxic in toxic_list` loop of `Proxy::delete_all_toxics`:
DELETE `proxies/{name}/toxics/{toxic.name}` for each element in order,
returning the first error immediately (`?`). -/
def Proxy.delete_toxics_loop {σ : Type} (step : Step σ) (p : Proxy) :
    List ToxicPack → σ → Except String Unit × σ
  | [], s => (.ok Unit.unit, s)
  | t :: ts, s =>
      let r := step s (Req.delToxic p.proxy_pack.name t.name)
      match r.1 with
      | .error e => (.error e, r.2)
      | .ok _ => Proxy.delete_toxics_loop step p ts r.2

/-- `Proxy::delete_all_toxics` from `src/proxy.rs`: fetch the current toxics,
then delete each by name (`toxics().and_then(...)`). -/
def Proxy.delete_all_toxics {σ : Type} (step : Step σ) (p : Proxy) (s : σ) :
    Except String Unit × σ :=
  match Proxy.toxics step p s with
  | (.error e, s1) => (.error e, s1)
  | (.ok ts, s1) => Proxy.delete_toxics_loop step p ts s1

/-- `Proxy::apply` from `src/proxy.rs`:
`closure(); self.delete_all_toxics()`. -/
def Proxy.apply {σ : Type} (step : Step σ) (p : Proxy) (closure : σ → σ)
    (s : σ) : Except String Unit × σ :=
  Proxy.delete_all_toxics step p (closure s)

/-- Observable events of a run: an HTTP request being issued, or the
user-supplied closure body being executed. -/
inductive Event where
  | call (r : Req)
  | bodyRun
deriving DecidableEq

/-- A response oracle for the trace instantiation.  It may consult the whole
event history, so arbitrary (stateful) server behaviours are representable. -/
abbrev Oracle := List Event → Req → Except String Resp

/-- Trace instantiation of the transport: answers come from the oracle and
every issued request is recorded at the end of the event trace. -/
def traceStep (f : Oracle) : Step (List Event) :=
  fun h r => (f h r, h ++ [Event.call r])

/-- A closure body in the trace instantiation: running it appends exactly one
`bodyRun` event, so the trace shows when (and how often) the body ran. -/
def traceBody : List Event → List Event := fun h => h ++ [Event.bodyRun]

/-- The DELETE-request events of `delete_all_toxics` for a list of toxics,
in list order. -/
def delCalls (pname : String) (ts : List ToxicPack) : List Event :=
  ts.map (fun t => Event.call (Req.delToxic pname t.name))

/-- Modelled from the spec: the remote toxiproxy server is an external
collaborator, not part of this repository, so its REST semantics (spec §6)
is modelled here for the claims that mention observations made through it.
State of the server restricted to the single proxy a handle talks to:
the proxy's name, whether it still exists (`DELETE proxies/{name}` removes
it), its enabled flag and its ordered toxic list. -/
structure ServerState where
  proxyName : String
  alive : Bool
  enabled : Bool
  toxics : List ToxicPack
deriving DecidableEq

/-- Remove the first toxic with the given name; `none` when no toxic has
that name (the server answers 404 in that case). -/
def removeToxicByName : List ToxicPack → String → Option (List ToxicPack)
  | [], _ => none
  | t :: ts, n =>
      if t.name = n then some ts
      else (removeToxicByName ts n).map (fun rest => t :: rest)

/-- Modelled from the spec: the server's reaction to each request of §6 —
requests about an unknown (or deleted) proxy fail; `GET proxies/{n}/toxics`
returns the toxic list; `POST proxies/{n}` sets the enabled flag;
`POST proxies/{n}/toxics` appends the toxic; `DELETE
proxies/{n}/toxics/{t}` removes the named toxic (404 when absent);
`DELETE proxies/{n}` removes the proxy and all its toxics. -/
def serverStep : Step ServerState := fun s r =>
  match r with
  | .getToxics n =>
      if s.alive = true ∧ n = s.proxyName then (.ok (.toxicList s.toxics), s)
      else (.error "HTTP error: 404 Not Found", s)
  | .postEnabled n b =>
      if s.alive = true ∧ n = s.proxyName then
        (.ok .done, { s with enabled := b })
      else (.error "HTTP error: 404 Not Found", s)
  | .postToxic n t =>
      if s.alive = true ∧ n = s.proxyName then
        (.ok .done, { s with toxics := s.toxics ++ [t] })
      else (.error "HTTP error: 404 Not Found", s)
  | .delToxic n tn =>
      if s.alive = true ∧ n = s.proxyName then
        match removeToxicByName s.toxics tn with
        | some rest => (.ok .done, { s with toxics := rest })
        | none => (.error "HTTP error: 404 Not Found", s)
      else (.error "HTTP error: 404 Not Found", s)
  | .delProxy n =>
      if s.alive = true ∧ n = s.proxyName then
        (.ok .done, { s with alive := false, toxics := [] })
      else (.error "HTTP error: 404 Not Found", s)

/-! Concrete objects used to instantiate the theorems below on executable
inputs. -/

/-- The proxy of the repository's own examples:
`ProxyPack::new("socket", "localhost:2001", "localhost:2000")`. -/
def proxySocket : Proxy :=
  { proxy_pack := ProxyPack.new "socket" "localhost:2001" "localhost:2000" }

/-- A handle over a different local snapshot of the same proxy name
(diverged `listen`, `enabled` and toxic list). -/
def proxySocketStale : Proxy :=
  { proxy_pack :=
      { name := "socket"
        listen := "localhost:9999"
        upstream := "localhost:9998"
        enabled := false
        toxics := [ToxicPack.new "timeout" "upstream" 1 [("timeout", 5000)]] } }

/-- An oracle whose transport rejects the disable request and accepts
everything else. -/
def failDisableOracle : Oracle := fun _ r =>
  match r with
  | .postEnabled _ false => .error "boom"
  | _ => .ok .done

/-- An oracle that reports one registered latency toxic and accepts every
other request. -/
def oneToxicOracle : Oracle := fun _ r =>
  match r with
  | .getToxics _ =>
      .ok (.toxicList
        [ToxicPack.new "latency" "downstream" 1
          [("latency", 2000), ("jitter", 0)]])
  | _ => .ok .done

/-- A stateless transport that fails every request. -/
def failStepU : Step Unit := fun s _ => (.error "boom", s)

/-- A stateless transport that accepts every request. -/
def okStepU : Step Unit := fun s _ => (.ok .done, s)

/-- A server holding the proxy `socket` with one registered toxic. -/
def serverSocket : ServerState :=
  { proxyName := "socket"
    alive := true
    enabled := true
    toxics :=
      [ToxicPack.new "latency" "downstream" 1
        [("latency", 2000), ("jitter", 0)]] }

/-- The server `serverSocket` after all toxics have been cleared. -/
def serverCleared : ServerState :=
  { proxyName := "socket"
    alive := true
    enabled := true
    toxics := [] }

/-! Helper lemmas: `List.lookup` on small explicit association lists. -/

theorem lookup_one (k a : String) (x v : ToxicValueType) :
    List.lookup k [(a, x)] = some v ↔ (k = a ∧ v = x) := by
  by_cases h1 : k = a
  · subst h1; simp [List.lookup, eq_comm]
  · simp [List.lookup, h1, beq_eq_false_iff_ne.mpr h1]

theorem lookup_two (k a b : String) (x y v : ToxicValueType)
    (hab : a ≠ b) :
    List.lookup k [(a, x), (b, y)] = some v ↔
      (k = a ∧ v = x) ∨ (k = b ∧ v = y) := by
  by_cases h1 : k = a
  · subst h1
    simp [List.lookup, eq_comm, beq_eq_false_iff_ne.mpr hab, hab]
  · by_cases h2 : k = b
    · subst h2
      simp [List.lookup, eq_comm, h1,
        beq_eq_false_iff_ne.mpr (fun h => h1 h)]
    · simp [List.lookup, h1, h2, beq_eq_false_iff_ne.mpr h1,
        beq_eq_false_iff_ne.mpr h2]

theorem lookup_three (k a b c : String) (x y z v : ToxicValueType)
    (hab : a ≠ b) (hac : a ≠ c) (hbc : b ≠ c) :
    List.lookup k [(a, x), (b, y), (c, z)] = some v ↔
      (k = a ∧ v = x) ∨ (k = b ∧ v = y) ∨ (k = c ∧ v = z) := by
  by_cases h1 : k = a
  · subst h1
    simp [List.lookup, eq_comm, beq_eq_false_iff_ne.mpr hab,
      beq_eq_false_iff_ne.mpr hac, hab, hac]
  · by_cases h2 : k = b
    · subst h2
      simp [List.lookup, eq_comm, h1,
        beq_eq_false_iff_ne.mpr (fun h => h1 h),
        beq_eq_false_iff_ne.mpr hbc, hbc]
    · by_cases h3 : k = c
      · subst h3
        simp [List.lookup, eq_comm, h1, h2,
          beq_eq_false_iff_ne.mpr (fun h => h1 h),
          beq_eq_false_iff_ne.mpr (fun h => h2 h)]
      · simp [List.lookup, h1, h2, h3, beq_eq_false_iff_ne.mpr h1,
          beq_eq_false_iff_ne.mpr h2, beq_eq_false_iff_ne.mpr h3]

/-! The attribute maps the six builders construct, reduced to explicit
association lists. -/

theorem latency_attrs (st : String) (l j : ToxicValueType) (t : Rat)
    (c : Option ToxicCondition) :
    (latencyToxicPack st l j t c).attributes =
      [("latency", l), ("jitter", j)] := rfl

theorem bandwidth_attrs (st : String) (r : ToxicValueType) (t : Rat)
    (c : Option ToxicCondition) :
    (bandwidthToxicPack st r t c).attributes = [("rate", r)] := rfl

theorem slow_close_attrs (st : String) (d : ToxicValueType) (t : Rat)
    (c : Option ToxicCondition) :
    (slowCloseToxicPack st d t c).attributes = [("delay", d)] := rfl

theorem timeout_attrs (st : String) (x : ToxicValueType) (t : Rat)
    (c : Option ToxicCondition) :
    (timeoutToxicPack st x t c).attributes = [("timeout", x)] := rfl

theorem slicer_attrs (st : String) (a sv d : ToxicValueType) (t : Rat)
    (c : Option ToxicCondition) :
    (slicerToxicPack st a sv d t c).attributes =
      [("average_size", a), ("size_variation", sv), ("delay", d)] := rfl

theorem limit_data_attrs (st : String) (b : ToxicValueType) (t : Rat)
    (c : Option ToxicCondition) :
    (limitDataToxicPack st b t c).attributes = [("bytes", b)] := rfl

/-- Claim C5: every toxic constructed by the client has its `name` field
derived as `"{type}_{stream}"` (the constructor takes no name argument, so
the name is never chosen per call); in particular type `latency` with stream
`downstream` deterministically yields `"latency_downstream"`, and each of
the six builders derives its name the same way. -/
theorem C5_toxic_name_derived :
    (∀ (type stream : String) (t : Rat)
        (a : List (String × ToxicValueType)) (c : Option ToxicCondition),
      (ToxicPack.new_with_condition type stream t a c).name =
        type ++ "_" ++ stream)
    ∧ (∀ (t : Rat) (a : List (String × ToxicValueType))
        (c : Option ToxicCondition),
      (ToxicPack.new_with_condition "latency" "downstream" t a c).name =
        "latency_downstream")
    ∧ (∀ (st : String) (l j : ToxicValueType) (t : Rat)
        (c : Option ToxicCondition),
      (latencyToxicPack st l j t c).name = "latency" ++ "_" ++ st)
    ∧ (∀ (st : String) (r : ToxicValueType) (t : Rat)
        (c : Option ToxicCondition),
      (bandwidthToxicPack st r t c).name = "bandwidth" ++ "_" ++ st)
    ∧ (∀ (st : String) (d : ToxicValueType) (t : Rat)
        (c : Option ToxicCondition),
      (slowCloseToxicPack st d t c).name = "slow_close" ++ "_" ++ st)
    ∧ (∀ (st : String) (x : ToxicValueType) (t : Rat)
        (c : Option ToxicCondition),
      (timeoutToxicPack st x t c).name = "timeout" ++ "_" ++ st)
    ∧ (∀ (st : String) (a sv d : ToxicValueType) (t : Rat)
        (c : Option ToxicCondition),
      (slicerToxicPack st a sv d t c).name = "slicer" ++ "_" ++ st)
    ∧ (∀ (st : String) (b : ToxicValueType) (t : Rat)
        (c : Option ToxicCondition),
      (limitDataToxicPack st b t c).name = "limit_data" ++ "_" ++ st) :=
  ⟨fun _ _ _ _ _ => rfl, fun _ _ _ => rfl, fun _ _ _ _ _ => rfl,
    fun _ _ _ _ => rfl, fun _ _ _ _ => rfl, fun _ _ _ _ => rfl,
    fun _ _ _ _ _ _ => rfl, fun _ _ _ _ => rfl⟩

/-- Claim C6: each toxic builder constructs a toxic whose attribute map
binds exactly the keys fixed for its type — latency: `latency`, `jitter`;
bandwidth: `rate`; slow_close: `delay`; timeout: `timeout`; slicer:
`average_size`, `size_variation`, `delay`; limit_data: `bytes` — each to
the corresponding argument, and no other key. -/
theorem C6_attribute_keys_exact :
    (∀ (st : String) (l j : ToxicValueType) (t : Rat)
        (c : Option ToxicCondition) (k : String) (v : ToxicValueType),
      List.lookup k (latencyToxicPack st l j t c).attributes = some v ↔
        (k = "latency" ∧ v = l) ∨ (k = "jitter" ∧ v = j))
    ∧ (∀ (st : String) (r : ToxicValueType) (t : Rat)
        (c : Option ToxicCondition) (k : String) (v : ToxicValueType),
      List.lookup k (bandwidthToxicPack st r t c).attributes = some v ↔
        (k = "rate" ∧ v = r))
    ∧ (∀ (st : String) (d : ToxicValueType) (t : Rat)
        (c : Option ToxicCondition) (k : String) (v : ToxicValueType),
      List.lookup k (slowCloseToxicPack st d t c).attributes = some v ↔
        (k = "delay" ∧ v = d))
    ∧ (∀ (st : String) (x : ToxicValueType) (t : Rat)
        (c : Option ToxicCondition) (k : String) (v : ToxicValueType),
      List.lookup k (timeoutToxicPack st x t c).attributes = some v ↔
        (k = "timeout" ∧ v = x))
    ∧ (∀ (st : String) (a sv d : ToxicValueType) (t : Rat)
        (c : Option ToxicCondition) (k : String) (v : ToxicValueType),
      List.lookup k (slicerToxicPack st a sv d t c).attributes = some v ↔
        (k = "average_size" ∧ v = a) ∨ (k = "size_variation" ∧ v = sv) ∨
          (k = "delay" ∧ v = d))
    ∧ (∀ (st : String) (b : ToxicValueType) (t : Rat)
        (c : Option ToxicCondition) (k : String) (v : ToxicValueType),
      List.lookup k (limitDataToxicPack st b t c).attributes = some v ↔
        (k = "bytes" ∧ v = b)) := by
  refine ⟨?_, ?_, ?_, ?_, ?_, ?_⟩
  · intro st l j t c k v
    rw [latency_attrs]
    exact lookup_two k "latency" "jitter" l j v (by decide)
  · intro st r t c k v
    rw [bandwidth_attrs]
    exact lookup_one k "rate" r v
  · intro st d t c k v
    rw [slow_close_attrs]
    exact lookup_one k "delay" d v
  · intro st x t c k v
    rw [timeout_attrs]
    exact lookup_one k "timeout" x v
  · intro st a sv d t c k v
    rw [slicer_attrs]
    exact lookup_three k "average_size" "size_variation" "delay" a sv d v
      (by decide) (by decide) (by decide)
  · intro st b t c k v
    rw [limit_data_attrs]
    exact lookup_one k "bytes" b v

/-- Claim C7 counterexample: the client performs no validation or clamping
of the `toxicity` argument — passing `2.0` to the latency builder produces a
toxic whose `toxicity` field is `2`, outside `[0, 1]`, refuting the claim
that every constructed toxic has its toxicity in `[0, 1]`. -/
theorem C7_counterexample_toxicity_out_of_range :
    ¬ (0 ≤ (latencyToxicPack "downstream" 2000 0 2 none).toxicity ∧
        (latencyToxicPack "downstream" 2000 0 2 none).toxicity ≤ 1) := by
  decide

/-- Claim C7 (amended): the constructed toxic's `toxicity` field equals the
argument verbatim — for the `ToxicPack` constructor and for each of the six
builders — so it lies in `[0, 1]` exactly when the caller passes a value in
`[0, 1]`; the client itself enforces no bound. -/
theorem C7_toxicity_stored_verbatim :
    (∀ (type stream : String) (t : Rat)
        (a : List (String × ToxicValueType)) (c : Option ToxicCondition),
      (ToxicPack.new_with_condition type stream t a c).toxicity = t)
    ∧ (∀ (st : String) (l j : ToxicValueType) (t : Rat)
        (c : Option ToxicCondition),
      (latencyToxicPack st l j t c).toxicity = t)
    ∧ (∀ (st : String) (r : ToxicValueType) (t : Rat)
        (c : Option ToxicCondition),
      (bandwidthToxicPack st r t c).toxicity = t)
    ∧ (∀ (st : String) (d : ToxicValueType) (t : Rat)
        (c : Option ToxicCondition),
      (slowCloseToxicPack st d t c).toxicity = t)
    ∧ (∀ (st : String) (x : ToxicValueType) (t : Rat)
        (c : Option ToxicCondition),
      (timeoutToxicPack st x t c).toxicity = t)
    ∧ (∀ (st : String) (a sv d : ToxicValueType) (t : Rat)
        (c : Option ToxicCondition),
      (slicerToxicPack st a sv d t c).toxicity = t)
    ∧ (∀ (st : String) (b : ToxicValueType) (t : Rat)
        (c : Option ToxicCondition),
      (limitDataToxicPack st b t c).toxicity = t)
    ∧ (∀ (type stream : String) (t : Rat)
        (a : List (String × ToxicValueType)) (c : Option ToxicCondition),
      0 ≤ t ∧ t ≤ 1 →
        0 ≤ (ToxicPack.new_with_condition type stream t a c).toxicity ∧
          (ToxicPack.new_with_condition type stream t a c).toxicity ≤ 1) :=
  ⟨fun _ _ _ _ _ => rfl, fun _ _ _ _ _ => rfl, fun _ _ _ _ => rfl,
    fun _ _ _ _ => rfl, fun _ _ _ _ => rfl, fun _ _ _ _ _ _ => rfl,
    fun _ _ _ _ => rfl, fun _ _ _ _ _ h => h⟩

/-- Claim C7 (amended) witness: concrete instantiation at toxicity `1/2`. -/
theorem C7_toxicity_stored_verbatim_witness :
    (ToxicPack.new_with_condition "latency" "downstream" (1 / 2) [] none
      ).toxicity = 1 / 2 ∧
    (0 ≤ (ToxicPack.new_with_condition "latency" "downstream" (1 / 2) []
        none).toxicity ∧
      (ToxicPack.new_with_condition "latency" "downstream" (1 / 2) []
        none).toxicity ≤ 1) :=
  ⟨C7_toxicity_stored_verbatim.1 "latency" "downstream" (1 / 2) [] none,
    C7_toxicity_stored_verbatim.2.2.2.2.2.2.2 "latency" "downstream"
      (1 / 2) [] none (by constructor <;> norm_num)⟩

/-- Claim C8: `ProxyPack::new` binds `name`, `listen` and `upstream`
verbatim and always sets `enabled = true` and an empty toxic list. -/
theorem C8_proxy_pack_new_fields :
    ∀ name listen upstream : String,
      (ProxyPack.new name listen upstream).name = name ∧
      (ProxyPack.new name listen upstream).listen = listen ∧
      (ProxyPack.new name listen upstream).upstream = upstream ∧
      (ProxyPack.new name listen upstream).enabled = true ∧
      (ProxyPack.new name listen upstream).toxics = [] :=
  fun _ _ _ => ⟨rfl, rfl, rfl, rfl, rfl⟩

/-- Claim C10: each plain toxic builder is extensionally equal to its
`*_upon_condition` variant applied to `condition = None` — it builds the
same toxic (with an empty `condition` field), issues the same request on
the same transport state, and produces the same outcome (including the
returned handle). -/
theorem C10_plain_builders_are_condition_variants_at_none :
    (∀ (σ : Type) (step : Step σ) (p : Proxy) (st : String)
        (l j : ToxicValueType) (t : Rat) (s : σ),
      Proxy.with_latency step p st l j t s =
        Proxy.with_latency_upon_condition step p st l j t none s)
    ∧ (∀ (σ : Type) (step : Step σ) (p : Proxy) (st : String)
        (r : ToxicValueType) (t : Rat) (s : σ),
      Proxy.with_bandwidth step p st r t s =
        Proxy.with_bandwidth_upon_condition step p st r t none s)
    ∧ (∀ (σ : Type) (step : Step σ) (p : Proxy) (st : String)
        (d : ToxicValueType) (t : Rat) (s : σ),
      Proxy.with_slow_close step p st d t s =
        Proxy.with_slow_close_upon_condition step p st d t none s)
    ∧ (∀ (σ : Type) (step : Step σ) (p : Proxy) (st : String)
        (x : ToxicValueType) (t : Rat) (s : σ),
      Proxy.with_timeout step p st x t s =
        Proxy.with_timeout_upon_condition step p st x t none s)
    ∧ (∀ (σ : Type) (step : Step σ) (p : Proxy) (st : String)
        (a sv d : ToxicValueType) (t : Rat) (s : σ),
      Proxy.with_slicer step p st a sv d t s =
        Proxy.with_slicer_upon_condition step p st a sv d t none s)
    ∧ (∀ (σ : Type) (step : Step σ) (p : Proxy) (st : String)
        (b : ToxicValueType) (t : Rat) (s : σ),
      Proxy.with_limit_data step p st b t s =
        Proxy.with_limit_data_upon_condition step p st b t none s)
    ∧ (∀ (type stream : String) (t : Rat)
        (a : List (String × ToxicValueType)),
      (ToxicPack.new_with_condition type stream t a none).condition =
        none) :=
  ⟨fun _ _ _ _ _ _ _ _ => rfl, fun _ _ _ _ _ _ _ => rfl,
    fun _ _ _ _ _ _ _ => rfl, fun _ _ _ _ _ _ _ => rfl,
    fun _ _ _ _ _ _ _ _ _ => rfl, fun _ _ _ _ _ _ _ => rfl,
    fun _ _ _ _ => rfl⟩

/-- Claim C1: `with_down(body)` first issues the disable request; if
disabling fails the body never runs (no `bodyRun` event), no enable request
is issued, and the disable error is returned; if disabling succeeds the body
runs exactly once, the enable request is issued after the body returns, and
the result of that enable call (success or failure alike) is returned to
the caller. -/
theorem C1_with_down_disable_body_enable :
    ∀ (f : Oracle) (p : Proxy) (h : List Event),
      (∀ e : String,
        f h (Req.postEnabled p.proxy_pack.name false) = .error e →
          Proxy.with_down (traceStep f) p traceBody h =
            (.error e,
              h ++ [Event.call (Req.postEnabled p.proxy_pack.name false)]))
      ∧ (∀ r : Resp,
        f h (Req.postEnabled p.proxy_pack.name false) = .ok r →
          Proxy.with_down (traceStep f) p traceBody h =
            (Except.map (fun _ => Unit.unit)
              (f (h ++
                    [Event.call (Req.postEnabled p.proxy_pack.name false),
                      Event.bodyRun])
                (Req.postEnabled p.proxy_pack.name true)),
              h ++
                [Event.call (Req.postEnabled p.proxy_pack.name false),
                  Event.bodyRun,
                  Event.call (Req.postEnabled p.proxy_pack.name true)])) := by
  intro f p h
  constructor
  · intro e he
    simp [Proxy.with_down, Proxy.disable, Proxy.enable, Proxy.update,
      traceStep, he, Except.map]
  · intro r hr
    simp [Proxy.with_down, Proxy.disable, Proxy.enable, Proxy.update,
      traceStep, traceBody, hr, Except.map]

/-- Claim C1 witness: when the transport rejects the disable request, the
concrete run issues only that request — the body never runs and no enable
request is issued — and returns the disable error. -/
theorem C1_with_down_disable_body_enable_witness :
    Proxy.with_down (traceStep failDisableOracle) proxySocket traceBody [] =
      (.error "boom",
        [Event.call (Req.postEnabled "socket" false)]) :=
  (C1_with_down_disable_body_enable failDisableOracle proxySocket []).1
    "boom" rfl

/-! Helper lemmas: the DELETE loop of `delete_all_toxics` over the trace
transport. -/

theorem delete_toxics_loop_all_ok (f : Oracle) (p : Proxy)
    (ts : List ToxicPack) :
    ∀ h : List Event,
      (∀ i, ∀ hi : i < ts.length, ∃ r : Resp,
        f (h ++ delCalls p.proxy_pack.name (ts.take i))
          (Req.delToxic p.proxy_pack.name (ts.get ⟨i, hi⟩).name) = .ok r) →
      Proxy.delete_toxics_loop (traceStep f) p ts h =
        (.ok Unit.unit, h ++ delCalls p.proxy_pack.name ts) := by
  induction ts with
  | nil =>
      intro h _
      simp [Proxy.delete_toxics_loop, delCalls]
  | cons t ts ih =>
      intro h hok
      obtain ⟨r, hr⟩ := hok 0 (Nat.succ_pos _)
      simp only [List.take_zero, delCalls, List.map_nil, List.append_nil,
        List.get] at hr
      have step1 :
          Proxy.delete_toxics_loop (traceStep f) p (t :: ts) h =
            Proxy.delete_toxics_loop (traceStep f) p ts
              (h ++ [Event.call (Req.delToxic p.proxy_pack.name t.name)]) := by
        simp [Proxy.delete_toxics_loop, traceStep, hr]
      have hok2 : ∀ i, ∀ hi : i < ts.length, ∃ r2 : Resp,
          f ((h ++ [Event.call (Req.delToxic p.proxy_pack.name t.name)]) ++
              delCalls p.proxy_pack.name (ts.take i))
            (Req.delToxic p.proxy_pack.name (ts.get ⟨i, hi⟩).name) =
            .ok r2 := by
        intro i hi
        obtain ⟨r2, hr2⟩ := hok (i + 1) (Nat.succ_lt_succ hi)
        refine ⟨r2, ?_⟩
        simpa [delCalls, List.take_succ_cons, List.append_assoc] using hr2
      rw [step1, ih _ hok2]
      simp [delCalls, List.append_assoc]

theorem delete_toxics_loop_first_error (f : Oracle) (p : Proxy)
    (ts : List ToxicPack) :
    ∀ (h : List Event) (i : Nat) (hi : i < ts.length) (e : String),
      (∀ j, ∀ hj : j < i, ∃ r : Resp,
        f (h ++ delCalls p.proxy_pack.name (ts.take j))
          (Req.delToxic p.proxy_pack.name
            (ts.get ⟨j, Nat.lt_trans hj hi⟩).name) = .ok r) →
      f (h ++ delCalls p.proxy_pack.name (ts.take i))
        (Req.delToxic p.proxy_pack.name (ts.get ⟨i, hi⟩).name) = .error e →
      Proxy.delete_toxics_loop (traceStep f) p ts h =
        (.error e, h ++ delCalls p.proxy_pack.name (ts.take (i + 1))) := by
  induction ts with
  | nil =>
      intro h i hi
      exact absurd hi (Nat.not_lt_zero i)
  | cons t ts ih =>
      intro h i hi e hoks herr
      cases i with
      | zero =>
          simp only [List.take_zero, delCalls, List.map_nil,
            List.append_nil, List.get] at herr
          simp [Proxy.delete_toxics_loop, traceStep, herr, delCalls,
            List.take_succ_cons]
      | succ k =>
          obtain ⟨r, hr⟩ := hoks 0 (Nat.succ_pos _)
          simp only [List.take_zero, delCalls, List.map_nil,
            List.append_nil, List.get] at hr
          have step1 :
              Proxy.delete_toxics_loop (traceStep f) p (t :: ts) h =
                Proxy.delete_toxics_loop (traceStep f) p ts
                  (h ++
                    [Event.call (Req.delToxic p.proxy_pack.name t.name)]) := by
            simp [Proxy.delete_toxics_loop, traceStep, hr]
          have hk : k < ts.length := Nat.lt_of_succ_lt_succ hi
          have hoks2 : ∀ j, ∀ hj : j < k, ∃ r2 : Resp,
              f ((h ++
                    [Event.call (Req.delToxic p.proxy_pack.name t.name)]) ++
                  delCalls p.proxy_pack.name (ts.take j))
                (Req.delToxic p.proxy_pack.name
                  (ts.get ⟨j, Nat.lt_trans hj hk⟩).name) = .ok r2 := by
            intro j hj
            obtain ⟨r2, hr2⟩ := hoks (j + 1) (Nat.succ_lt_succ hj)
            refine ⟨r2, ?_⟩
            simpa [delCalls, List.take_succ_cons, List.append_assoc]
              using hr2
          have herr2 :
              f ((h ++
                    [Event.call (Req.delToxic p.proxy_pack.name t.name)]) ++
                  delCalls p.proxy_pack.name (ts.take k))
                (Req.delToxic p.proxy_pack.name (ts.get ⟨k, hk⟩).name) =
                .error e := by
            simpa [delCalls, List.take_succ_cons, List.append_assoc]
              using herr
          rw [step1, ih _ k hk e hoks2 herr2]
          simp [delCalls, List.take_succ_cons, List.append_assoc]

theorem delete_toxics_loop_ok_forces (f : Oracle) (p : Proxy)
    (ts : List ToxicPack) :
    ∀ (h h2 : List Event) (u : Unit),
      Proxy.delete_toxics_loop (traceStep f) p ts h = (.ok u, h2) →
      ∀ i, ∀ hi : i < ts.length, ∃ r : Resp,
        f (h ++ delCalls p.proxy_pack.name (ts.take i))
          (Req.delToxic p.proxy_pack.name (ts.get ⟨i, hi⟩).name) = .ok r := by
  induction ts with
  | nil =>
      intro h h2 u _ i hi
      exact absurd hi (Nat.not_lt_zero i)
  | cons t ts ih =>
      intro h h2 u hloop i hi
      cases hft : f h (Req.delToxic p.proxy_pack.name t.name) with
      | error e =>
          rw [show Proxy.delete_toxics_loop (traceStep f) p (t :: ts) h =
              (.error e,
                h ++ [Event.call (Req.delToxic p.proxy_pack.name t.name)])
            from by simp [Proxy.delete_toxics_loop, traceStep, hft]]
            at hloop
          simp at hloop
      | ok r =>
          have step1 :
              Proxy.delete_toxics_loop (traceStep f) p (t :: ts) h =
                Proxy.delete_toxics_loop (traceStep f) p ts
                  (h ++
                    [Event.call (Req.delToxic p.proxy_pack.name t.name)]) :=
            by simp [Proxy.delete_toxics_loop, traceStep, hft]
          rw [step1] at hloop
          cases i with
          | zero =>
              refine ⟨r, ?_⟩
              simpa [delCalls] using hft
          | succ k =>
              have hk : k < ts.length := Nat.lt_of_succ_lt_succ hi
              obtain ⟨r2, hr2⟩ := ih _ h2 u hloop k hk
              refine ⟨r2, ?_⟩
              simpa [delCalls, List.take_succ_cons, List.append_assoc]
                using hr2

/-- Claim C4: `delete_all_toxics` first issues the GET fetching the toxic
list; a fetch error is returned at once with no deletions.  On a successful
fetch it issues one DELETE per listed toxic in list order; if every deletion
succeeds it returns `Ok` having issued them all, and the first deletion
error is returned immediately, aborting the remaining deletions.
Conversely, an `Ok` result forces the fetch and every deletion to have
succeeded. -/
theorem C4_delete_all_toxics_order_and_errors :
    ∀ (f : Oracle) (p : Proxy) (h : List Event),
      (∀ e : String,
        f h (Req.getToxics p.proxy_pack.name) = .error e →
          Proxy.delete_all_toxics (traceStep f) p h =
            (.error e,
              h ++ [Event.call (Req.getToxics p.proxy_pack.name)]))
      ∧ (∀ ts : List ToxicPack,
        f h (Req.getToxics p.proxy_pack.name) = .ok (.toxicList ts) →
          ((∀ i, ∀ hi : i < ts.length, ∃ r : Resp,
            f ((h ++ [Event.call (Req.getToxics p.proxy_pack.name)]) ++
                delCalls p.proxy_pack.name (ts.take i))
              (Req.delToxic p.proxy_pack.name (ts.get ⟨i, hi⟩).name) =
              .ok r) →
            Proxy.delete_all_toxics (traceStep f) p h =
              (.ok Unit.unit,
                (h ++ [Event.call (Req.getToxics p.proxy_pack.name)]) ++
                  delCalls p.proxy_pack.name ts))
          ∧ (∀ (i : Nat) (hi : i < ts.length) (e : String),
            (∀ j, ∀ hj : j < i, ∃ r : Resp,
              f ((h ++ [Event.call (Req.getToxics p.proxy_pack.name)]) ++
                  delCalls p.proxy_pack.name (ts.take j))
                (Req.delToxic p.proxy_pack.name
                  (ts.get ⟨j, Nat.lt_trans hj hi⟩).name) = .ok r) →
            f ((h ++ [Event.call (Req.getToxics p.proxy_pack.name)]) ++
                delCalls p.proxy_pack.name (ts.take i))
              (Req.delToxic p.proxy_pack.name (ts.get ⟨i, hi⟩).name) =
              .error e →
            Proxy.delete_all_toxics (traceStep f) p h =
              (.error e,
                (h ++ [Event.call (Req.getToxics p.proxy_pack.name)]) ++
                  delCalls p.proxy_pack.name (ts.take (i + 1)))))
      ∧ (∀ (u : Unit) (h2 : List Event),
        Proxy.delete_all_toxics (traceStep f) p h = (.ok u, h2) →
          ∃ ts : List ToxicPack,
            f h (Req.getToxics p.proxy_pack.name) = .ok (.toxicList ts) ∧
            ∀ i, ∀ hi : i < ts.length, ∃ r : Resp,
              f ((h ++ [Event.call (Req.getToxics p.proxy_pack.name)]) ++
                  delCalls p.proxy_pack.name (ts.take i))
                (Req.delToxic p.proxy_pack.name (ts.get ⟨i, hi⟩).name) =
                .ok r) := by
  intro f p h
  refine ⟨?_, ?_, ?_⟩
  · intro e he
    simp [Proxy.delete_all_toxics, Proxy.toxics, traceStep, he]
  · intro ts hts
    have step1 : Proxy.delete_all_toxics (traceStep f) p h =
        Proxy.delete_toxics_loop (traceStep f) p ts
          (h ++ [Event.call (Req.getToxics p.proxy_pack.name)]) := by
      simp [Proxy.delete_all_toxics, Proxy.toxics, traceStep, hts]
    constructor
    · intro hok
      rw [step1]
      exact delete_toxics_loop_all_ok f p ts _ hok
    · intro i hi e hoks herr
      rw [step1]
      exact delete_toxics_loop_first_error f p ts _ i hi e hoks herr
  · intro u h2 hdone
    cases hft : f h (Req.getToxics p.proxy_pack.name) with
    | error e =>
        rw [show Proxy.delete_all_toxics (traceStep f) p h =
            (.error e,
              h ++ [Event.call (Req.getToxics p.proxy_pack.name)]) from
          by simp [Proxy.delete_all_toxics, Proxy.toxics, traceStep, hft]]
          at hdone
        simp at hdone
    | ok r =>
        cases r with
        | done =>
            rw [show Proxy.delete_all_toxics (traceStep f) p h =
                (.error "json deserialize failed",
                  h ++ [Event.call (Req.getToxics p.proxy_pack.name)]) from
              by simp [Proxy.delete_all_toxics, Proxy.toxics, traceStep,
                hft]] at hdone
            simp at hdone
        | toxicList ts =>
            have step1 : Proxy.delete_all_toxics (traceStep f) p h =
                Proxy.delete_toxics_loop (traceStep f) p ts
                  (h ++ [Event.call (Req.getToxics p.proxy_pack.name)]) := by
              simp [Proxy.delete_all_toxics, Proxy.toxics, traceStep, hft]
            rw [step1] at hdone
            exact ⟨ts, rfl,
              delete_toxics_loop_ok_forces f p ts _ h2 u hdone⟩

/-- Claim C4 witness: on a server reporting exactly one registered toxic and
accepting every request, the concrete run issues the GET and then the single
DELETE of `latency_downstream`, and returns `Ok`. -/
theorem C4_delete_all_toxics_order_and_errors_witness :
    Proxy.delete_all_toxics (traceStep oneToxicOracle) proxySocket [] =
      (.ok Unit.unit,
        [Event.call (Req.getToxics "socket"),
          Event.call (Req.delToxic "socket" "latency_downstream")]) :=
  ((C4_delete_all_toxics_order_and_errors oneToxicOracle proxySocket
      []).2.1
    [ToxicPack.new "latency" "downstream" 1
      [("latency", 2000), ("jitter", 0)]] rfl).1
    (fun _ _ => ⟨Resp.done, rfl⟩)

/-! Helper lemmas: `delete_all_toxics` against the modelled server. -/

theorem removeToxicByName_length :
    ∀ (ts : List ToxicPack) (n : String) (rest : List ToxicPack),
      removeToxicByName ts n = some rest → rest.length + 1 = ts.length := by
  intro ts
  induction ts with
  | nil =>
      intro n rest hr
      simp [removeToxicByName] at hr
  | cons t ts ih =>
      intro n rest hr
      by_cases hn : t.name = n
      · simp [removeToxicByName, hn] at hr
        subst hr
        simp
      · simp [removeToxicByName, hn] at hr
        obtain ⟨a, ha, hrest⟩ := hr
        subst hrest
        simp only [List.length_cons]
        have := ih n a ha
        omega

theorem delete_toxics_loop_server (p : Proxy) :
    ∀ (del : List ToxicPack) (s s2 : ServerState) (u : Unit),
      Proxy.delete_toxics_loop serverStep p del s = (.ok u, s2) →
      s2.proxyName = s.proxyName ∧ s2.alive = s.alive ∧
        s2.enabled = s.enabled ∧
        s2.toxics.length + del.length = s.toxics.length := by
  intro del
  induction del with
  | nil =>
      intro s s2 u h
      simp [Proxy.delete_toxics_loop] at h
      subst h
      simp
  | cons t del ih =>
      intro s s2 u h
      by_cases hcond : s.alive = true ∧ p.proxy_pack.name = s.proxyName
      · cases hrem : removeToxicByName s.toxics t.name with
        | none =>
            rw [show Proxy.delete_toxics_loop serverStep p (t :: del) s =
                (.error "HTTP error: 404 Not Found", s) from by
              simp [Proxy.delete_toxics_loop, serverStep, hcond.1, hcond.2,
                hrem]] at h
            simp at h
        | some rest =>
            have step1 :
                Proxy.delete_toxics_loop serverStep p (t :: del) s =
                  Proxy.delete_toxics_loop serverStep p del
                    { s with toxics := rest } := by
              simp [Proxy.delete_toxics_loop, serverStep, hcond.1, hcond.2,
                hrem]
            rw [step1] at h
            obtain ⟨h1, h2, h3, h4⟩ := ih _ s2 u h
            have hlen := removeToxicByName_length s.toxics t.name rest hrem
            simp only [List.length_cons] at h4 ⊢
            refine ⟨by simpa using h1, by simpa using h2,
              by simpa using h3, ?_⟩
            have h4x : s2.toxics.length + del.length = rest.length := h4
            omega
      · rw [show Proxy.delete_toxics_loop serverStep p (t :: del) s =
            (.error "HTTP error: 404 Not Found", s) from by
          simp only [Proxy.delete_toxics_loop, serverStep]
          rw [if_neg hcond]] at h
        simp at h

theorem delete_all_toxics_server (p : Proxy) (s s2 : ServerState)
    (u : Unit) :
    Proxy.delete_all_toxics serverStep p s = (.ok u, s2) →
      s2.toxics = [] ∧ s2.alive = true ∧ s2.proxyName = s.proxyName ∧
        p.proxy_pack.name = s.proxyName := by
  intro h
  by_cases hcond : s.alive = true ∧ p.proxy_pack.name = s.proxyName
  · have step1 : Proxy.delete_all_toxics serverStep p s =
        Proxy.delete_toxics_loop serverStep p s.toxics s := by
      simp [Proxy.delete_all_toxics, Proxy.toxics, serverStep, hcond.1,
        hcond.2]
    rw [step1] at h
    obtain ⟨h1, h2, h3, h4⟩ := delete_toxics_loop_server p s.toxics s s2 u h
    have hlen : s2.toxics.length = 0 := by omega
    exact ⟨List.length_eq_zero.mp hlen, by rw [h2]; exact hcond.1, h1,
      hcond.2⟩
  · rw [show Proxy.delete_all_toxics serverStep p s =
        (.error "HTTP error: 404 Not Found", s) from by
      simp only [Proxy.delete_all_toxics, Proxy.toxics, serverStep]
      rw [if_neg hcond]] at h
    simp at h

/-- Claim C2: `apply(body)` runs the body exactly once (in the trace model
it contributes exactly one `bodyRun` event, placed before all requests of
the cleanup) and then unconditionally calls `delete_all_toxics`, returning
that call's result; and against the modelled server, whenever `apply`
returns `Ok` a subsequent `toxics()` call observes the empty sequence, no
matter how many toxics were registered beforehand (including any the body
registered itself). -/
theorem C2_apply_runs_body_then_clears :
    (∀ (σ : Type) (step : Step σ) (p : Proxy) (body : σ → σ) (s : σ),
      Proxy.apply step p body s = Proxy.delete_all_toxics step p (body s))
    ∧ (∀ (f : Oracle) (p : Proxy) (h : List Event),
      Proxy.apply (traceStep f) p traceBody h =
        Proxy.delete_all_toxics (traceStep f) p (h ++ [Event.bodyRun]))
    ∧ (∀ (p : Proxy) (body : ServerState → ServerState)
        (s s2 : ServerState) (u : Unit),
      Proxy.apply serverStep p body s = (.ok u, s2) →
        Proxy.toxics serverStep p s2 = (.ok [], s2)) := by
  refine ⟨fun _ _ _ _ _ => rfl, fun _ _ _ => rfl, ?_⟩
  intro p body s s2 u h
  obtain ⟨h1, h2, h3, h4⟩ := delete_all_toxics_server p (body s) s2 u h
  have hname : p.proxy_pack.name = s2.proxyName := h4.trans h3.symm
  simp [Proxy.toxics, serverStep, h1, h2, hname]

/-- Claim C2 witness: running `apply` with an inert body against the
concrete one-toxic server succeeds and clears it, and `toxics()` on the
resulting server returns the empty list. -/
theorem C2_apply_runs_body_then_clears_witness :
    Proxy.apply serverStep proxySocket id serverSocket =
      (.ok Unit.unit, serverCleared) ∧
    Proxy.toxics serverStep proxySocket serverCleared =
      (.ok [], serverCleared) :=
  ⟨rfl,
    C2_apply_runs_body_then_clears.2.2 proxySocket id serverSocket
      serverCleared Unit.unit rfl⟩

/-- Claim C3: the toxic-builder operations never return a recoverable
error — `create_toxic`, which all twelve builders are (definitionally
shown below to be) instances of, panics (aborting the program) exactly when
the POST to `proxies/{name}/toxics` fails, and on success returns the very
handle it was invoked on, allowing chained registrations. -/
theorem C3_builders_abort_on_failure :
    (∀ (σ : Type) (step : Step σ) (p : Proxy) (t : ToxicPack) (s : σ),
      (∀ e : String,
        (step s (Req.postToxic p.proxy_pack.name t)).1 = .error e →
          Proxy.create_toxic step p t s =
            .panicked ("<proxies>.<toxics> creation has failed: " ++ e)
              (step s (Req.postToxic p.proxy_pack.name t)).2)
      ∧ (∀ r : Resp,
        (step s (Req.postToxic p.proxy_pack.name t)).1 = .ok r →
          Proxy.create_toxic step p t s =
            .ok p (step s (Req.postToxic p.proxy_pack.name t)).2))
    ∧ (∀ (σ : Type) (step : Step σ) (p : Proxy) (st : String)
        (l j : ToxicValueType) (t : Rat) (c : Option ToxicCondition)
        (s : σ),
      Proxy.with_latency_upon_condition step p st l j t c s =
          Proxy.create_toxic step p (latencyToxicPack st l j t c) s
        ∧ Proxy.with_latency step p st l j t s =
          Proxy.create_toxic step p (latencyToxicPack st l j t none) s)
    ∧ (∀ (σ : Type) (step : Step σ) (p : Proxy) (st : String)
        (r : ToxicValueType) (t : Rat) (c : Option ToxicCondition) (s : σ),
      Proxy.with_bandwidth_upon_condition step p st r t c s =
          Proxy.create_toxic step p (bandwidthToxicPack st r t c) s
        ∧ Proxy.with_bandwidth step p st r t s =
          Proxy.create_toxic step p (bandwidthToxicPack st r t none) s)
    ∧ (∀ (σ : Type) (step : Step σ) (p : Proxy) (st : String)
        (d : ToxicValueType) (t : Rat) (c : Option ToxicCondition) (s : σ),
      Proxy.with_slow_close_upon_condition step p st d t c s =
          Proxy.create_toxic step p (slowCloseToxicPack st d t c) s
        ∧ Proxy.with_slow_close step p st d t s =
          Proxy.create_toxic step p (slowCloseToxicPack st d t none) s)
    ∧ (∀ (σ : Type) (step : Step σ) (p : Proxy) (st : String)
        (x : ToxicValueType) (t : Rat) (c : Option ToxicCondition) (s : σ),
      Proxy.with_timeout_upon_condition step p st x t c s =
          Proxy.create_toxic step p (timeoutToxicPack st x t c) s
        ∧ Proxy.with_timeout step p st x t s =
          Proxy.create_toxic step p (timeoutToxicPack st x t none) s)
    ∧ (∀ (σ : Type) (step : Step σ) (p : Proxy) (st : String)
        (a sv d : ToxicValueType) (t : Rat) (c : Option ToxicCondition)
        (s : σ),
      Proxy.with_slicer_upon_condition step p st a sv d t c s =
          Proxy.create_toxic step p (slicerToxicPack st a sv d t c) s
        ∧ Proxy.with_slicer step p st a sv d t s =
          Proxy.create_toxic step p (slicerToxicPack st a sv d t none) s)
    ∧ (∀ (σ : Type) (step : Step σ) (p : Proxy) (st : String)
        (b : ToxicValueType) (t : Rat) (c : Option ToxicCondition) (s : σ),
      Proxy.with_limit_data_upon_condition step p st b t c s =
          Proxy.create_toxic step p (limitDataToxicPack st b t c) s
        ∧ Proxy.with_limit_data step p st b t s =
          Proxy.create_toxic step p (limitDataToxicPack st b t none) s) := by
  refine ⟨?_, fun _ _ _ _ _ _ _ _ _ => ⟨rfl, rfl⟩,
    fun _ _ _ _ _ _ _ _ => ⟨rfl, rfl⟩, fun _ _ _ _ _ _ _ _ => ⟨rfl, rfl⟩,
    fun _ _ _ _ _ _ _ _ => ⟨rfl, rfl⟩,
    fun _ _ _ _ _ _ _ _ _ _ => ⟨rfl, rfl⟩,
    fun _ _ _ _ _ _ _ _ => ⟨rfl, rfl⟩⟩
  intro σ step p t s
  constructor
  · intro e he
    simp [Proxy.create_toxic, he]
  · intro r hr
    simp [Proxy.create_toxic, hr]

/-- Claim C3 witness: on a transport that rejects everything the concrete
toxic creation panics with the source's message; on one that accepts
everything it returns the same handle. -/
theorem C3_builders_abort_on_failure_witness :
    Proxy.create_toxic failStepU proxySocket
        (latencyToxicPack "downstream" 2000 0 1 none) Unit.unit =
      .panicked "<proxies>.<toxics> creation has failed: boom" Unit.unit ∧
    Proxy.create_toxic okStepU proxySocket
        (latencyToxicPack "downstream" 2000 0 1 none) Unit.unit =
      .ok proxySocket Unit.unit :=
  ⟨(C3_builders_abort_on_failure.1 Unit failStepU proxySocket
      (latencyToxicPack "downstream" 2000 0 1 none) Unit.unit).1 "boom" rfl,
    (C3_builders_abort_on_failure.1 Unit okStepU proxySocket
      (latencyToxicPack "downstream" 2000 0 1 none) Unit.unit).2
      Resp.done rfl⟩

/-! Helper lemmas: every operation consumes only the proxy name from the
local configuration. -/

theorem create_toxic_ok_handle {σ : Type} (step : Step σ) (p : Proxy)
    (t : ToxicPack) (s : σ) (p2 : Proxy) (s2 : σ) :
    Proxy.create_toxic step p t s = .ok p2 s2 → p2 = p := by
  intro h
  simp only [Proxy.create_toxic] at h
  cases hstep : (step s (Req.postToxic p.proxy_pack.name t)).1 with
  | error e =>
      rw [hstep] at h
      simp at h
  | ok r =>
      rw [hstep] at h
      simp at h
      exact h.1.symm

theorem delete_toxics_loop_name_congr {σ : Type} (step : Step σ)
    (p q : Proxy) (hname : p.proxy_pack.name = q.proxy_pack.name) :
    ∀ (ts : List ToxicPack) (s : σ),
      Proxy.delete_toxics_loop step p ts s =
        Proxy.delete_toxics_loop step q ts s := by
  intro ts
  induction ts with
  | nil => intro s; rfl
  | cons t ts ih =>
      intro s
      cases hstep : (step s (Req.delToxic q.proxy_pack.name t.name)).1 with
      | error e =>
          simp [Proxy.delete_toxics_loop, hname, hstep]
      | ok r =>
          simp [Proxy.delete_toxics_loop, hname, hstep, ih]

theorem delete_all_toxics_name_congr {σ : Type} (step : Step σ)
    (p q : Proxy) (hname : p.proxy_pack.name = q.proxy_pack.name)
    (s : σ) :
    Proxy.delete_all_toxics step p s =
      Proxy.delete_all_toxics step q s := by
  have htox : Proxy.toxics step p s = Proxy.toxics step q s := by
    simp [Proxy.toxics, hname]
  simp only [Proxy.delete_all_toxics, htox]
  rcases hq : Proxy.toxics step q s with ⟨res, s1⟩
  cases res with
  | error e => rfl
  | ok ts => exact delete_toxics_loop_name_congr step p q hname ts s1

/-- Claim C9: no operation on a `Proxy` handle touches the locally stored
`ProxyPack` — in the embedding, each operation consumes only the immutable
`proxy_pack.name` (so two handles whose local copies differ in `enabled`,
`listen` or the toxic list but agree on the name behave identically), and
the only handle any operation ever hands back — the builders' chaining
result — is the receiver itself, unchanged. -/
theorem C9_local_config_never_updated :
    (∀ (σ : Type) (step : Step σ) (p q : Proxy) (s : σ),
      p.proxy_pack.name = q.proxy_pack.name →
        (∀ b : Bool, Proxy.update step p b s = Proxy.update step q b s)
        ∧ Proxy.enable step p s = Proxy.enable step q s
        ∧ Proxy.disable step p s = Proxy.disable step q s
        ∧ Proxy.delete step p s = Proxy.delete step q s
        ∧ Proxy.toxics step p s = Proxy.toxics step q s
        ∧ Proxy.delete_all_toxics step p s =
            Proxy.delete_all_toxics step q s
        ∧ (∀ closure : σ → σ,
            Proxy.with_down step p closure s =
              Proxy.with_down step q closure s)
        ∧ (∀ closure : σ → σ,
            Proxy.apply step p closure s = Proxy.apply step q closure s)
        ∧ (∀ t : ToxicPack,
            Proxy.create_toxic step p t s = Proxy.create_toxic step q t s
              ∨ ∃ s2, Proxy.create_toxic step p t s = .ok p s2 ∧
                  Proxy.create_toxic step q t s = .ok q s2))
    ∧ (∀ (σ : Type) (step : Step σ) (p : Proxy) (t : ToxicPack) (s : σ)
        (p2 : Proxy) (s2 : σ),
      Proxy.create_toxic step p t s = .ok p2 s2 → p2 = p)
    ∧ (∀ (σ : Type) (step : Step σ) (p : Proxy) (st : String)
        (l j : ToxicValueType) (t : Rat) (c : Option ToxicCondition)
        (s : σ) (p2 : Proxy) (s2 : σ),
      Proxy.with_latency_upon_condition step p st l j t c s = .ok p2 s2 →
        p2 = p)
    ∧ (∀ (σ : Type) (step : Step σ) (p : Proxy) (st : String)
        (r : ToxicValueType) (t : Rat) (c : Option ToxicCondition) (s : σ)
        (p2 : Proxy) (s2 : σ),
      Proxy.with_bandwidth_upon_condition step p st r t c s = .ok p2 s2 →
        p2 = p)
    ∧ (∀ (σ : Type) (step : Step σ) (p : Proxy) (st : String)
        (d : ToxicValueType) (t : Rat) (c : Option ToxicCondition) (s : σ)
        (p2 : Proxy) (s2 : σ),
      Proxy.with_slow_close_upon_condition step p st d t c s = .ok p2 s2 →
        p2 = p)
    ∧ (∀ (σ : Type) (step : Step σ) (p : Proxy) (st : String)
        (x : ToxicValueType) (t : Rat) (c : Option ToxicCondition) (s : σ)
        (p2 : Proxy) (s2 : σ),
      Proxy.with_timeout_upon_condition step p st x t c s = .ok p2 s2 →
        p2 = p)
    ∧ (∀ (σ : Type) (step : Step σ) (p : Proxy) (st : String)
        (a sv d : ToxicValueType) (t : Rat) (c : Option ToxicCondition)
        (s : σ) (p2 : Proxy) (s2 : σ),
      Proxy.with_slicer_upon_condition step p st a sv d t c s = .ok p2 s2 →
        p2 = p)
    ∧ (∀ (σ : Type) (step : Step σ) (p : Proxy) (st : String)
        (b : ToxicValueType) (t : Rat) (c : Option ToxicCondition) (s : σ)
        (p2 : Proxy) (s2 : σ),
      Proxy.with_limit_data_upon_condition step p st b t c s = .ok p2 s2 →
        p2 = p) := by
  refine ⟨?_,
    fun σ step p t s p2 s2 h => create_toxic_ok_handle step p t s p2 s2 h,
    fun σ step p st l j t c s p2 s2 h =>
      create_toxic_ok_handle step p _ s p2 s2 h,
    fun σ step p st r t c s p2 s2 h =>
      create_toxic_ok_handle step p _ s p2 s2 h,
    fun σ step p st d t c s p2 s2 h =>
      create_toxic_ok_handle step p _ s p2 s2 h,
    fun σ step p st x t c s p2 s2 h =>
      create_toxic_ok_handle step p _ s p2 s2 h,
    fun σ step p st a sv d t c s p2 s2 h =>
      create_toxic_ok_handle step p _ s p2 s2 h,
    fun σ step p st b t c s p2 s2 h =>
      create_toxic_ok_handle step p _ s p2 s2 h⟩
  intro σ step p q s hname
  have hupd : ∀ b s0, Proxy.update step p b s0 = Proxy.update step q b s0 :=
    fun b s0 => by simp [Proxy.update, hname]
  refine ⟨fun b => hupd b s, hupd true s, hupd false s,
    by simp [Proxy.delete, hname], by simp [Proxy.toxics, hname],
    delete_all_toxics_name_congr step p q hname s, ?_, ?_, ?_⟩
  · intro closure
    simp only [Proxy.with_down, Proxy.disable, hupd false s]
    rcases hq : Proxy.update step q false s with ⟨res, s1⟩
    cases res with
    | error e => rfl
    | ok r => exact hupd true (closure s1)
  · intro closure
    simp only [Proxy.apply]
    exact delete_all_toxics_name_congr step p q hname (closure s)
  · intro t
    cases hstep : (step s (Req.postToxic q.proxy_pack.name t)).1 with
    | error e =>
        left
        simp [Proxy.create_toxic, hname, hstep]
    | ok r =>
        right
        refine ⟨(step s (Req.postToxic q.proxy_pack.name t)).2, ?_, ?_⟩
        · simp [Proxy.create_toxic, hname, hstep]
        · simp [Proxy.create_toxic, hstep]

/-- Claim C9 witness: two handles over diverged local snapshots of the same
proxy name behave identically, and a concrete successful toxic creation
hands back exactly the receiver handle. -/
theorem C9_local_config_never_updated_witness :
    Proxy.toxics okStepU proxySocket Unit.unit =
        Proxy.toxics okStepU proxySocketStale Unit.unit ∧
      proxySocket = proxySocket :=
  ⟨(C9_local_config_never_updated.1 Unit okStepU proxySocket
      proxySocketStale Unit.unit rfl).2.2.2.2.1,
    C9_local_config_never_updated.2.1 Unit okStepU proxySocket
      (latencyToxicPack "downstream" 2000 0 1 none) Unit.unit proxySocket
      Unit.unit rfl⟩

end ToxiproxyRust
